import Mathlib

/-!
Verification development for a small interactive dashboard consisting of two
near-duplicate pages:

* `pages/01_map.py` — a global population-range slider page: reactive state
  (`data_df`, `status_message`, `min_pop_value`, `max_pop_value`,
  `country_pop_bounds`), a bounds loader (`load_global_pop_bounds`), a query
  function (`load_filtered_data`, SQL `WHERE population BETWEEN … ORDER BY
  population DESC LIMIT 1000`), a clustered map-layer update routine
  (`update_layer`) and a page that truncates the table display at 300 rows.
* `pages/02_app.py` — a country-select page: a query function
  (`load_filtered_data`, SQL `WHERE country = … ORDER BY population DESC
  LIMIT 10`) whose exception handler prints to the console, and a page whose
  only status display is a loading/info message.

The embedding below is shallow: the SQL engine is modelled by executable list
operations with the standard semantics of the issued query text
(filter, descending sort, limit); the remote dataset fetch and every other
fallible external call is an explicit `Except` argument, so the Python
`try/except` blocks become total functions; the reactive variables become an
explicit state record threaded through each handler.  Coordinates are modelled
as integers (they never influence control flow in the claims considered) and
populations as naturals, matching the data model's contract that population is
a non-negative integer.
-/

namespace Cities

/-- A record of the remote cities dataset, after the numeric coercions the
query function performs (`population` integral, coordinates numeric). -/
structure CityRow where
  name : String
  country : String
  population : Nat
  latitude : Int
  longitude : Int
deriving Repr, DecidableEq

/-- The comparison used by `ORDER BY population DESC`: row `a` may precede
row `b` exactly when `a`'s population is at least `b`'s. -/
def popDesc (a b : CityRow) : Bool := b.population ≤ a.population

namespace MapPage

/-! Embedding of `pages/01_map.py`. -/

def MIN_POP_DEFAULT : Nat := 100000

def MAX_POP_DEFAULT : Nat := 5000000

def MAX_POP_SLIDER : Nat := 15000000

/-- The page's reactive state: `data_df`, `status_message`, the two slider
values and the slider domain `country_pop_bounds`. -/
structure State where
  data_df : List CityRow
  status_message : String
  min_pop_value : Nat
  max_pop_value : Nat
  country_pop_bounds : Nat × Nat
deriving Repr, DecidableEq

/-- `int(np.ceil(max_pop_actual / 100000.0)) * 100000`, floored at `100000`
(`if max_pop_rounded < 100000: max_pop_rounded = 100000`).  Exact ceiling
arithmetic; the float detour in the source is exact on every population that
fits in 53 bits. -/
def roundedUpperBound (max_pop_actual : Nat) : Nat :=
  let max_pop_rounded := ((max_pop_actual + 99999) / 100000) * 100000
  if max_pop_rounded < 100000 then 100000 else max_pop_rounded

/-- `load_global_pop_bounds` (01_map.py lines 29-51).  The aggregate query
`SELECT MIN(population), MAX(population)` is modelled by an `Except` argument
carrying the two possibly-NULL aggregates; the `except` branch resets the
domain to `(0, MAX_POP_SLIDER)` and reports an error, leaving the slider
values untouched. -/
def load_global_pop_bounds (fetch : Except String (Option Nat × Option Nat))
    (s : State) : State :=
  match fetch with
  | .error e =>
      { s with
        status_message := "錯誤：載入全域人口邊界失敗 (" ++ e ++ ")"
        country_pop_bounds := (0, MAX_POP_SLIDER) }
  | .ok (mn, mx) =>
      let min_pop_actual := mn.getD 0
      let max_pop_actual := mx.getD MAX_POP_SLIDER
      let max_pop_rounded := roundedUpperBound max_pop_actual
      { s with
        country_pop_bounds := (min_pop_actual, max_pop_rounded)
        min_pop_value := min_pop_actual
        max_pop_value := max_pop_rounded
        status_message := "全域人口範圍載入完成: " ++ toString min_pop_actual
          ++ " - " ++ toString max_pop_rounded }

/-- The conjunction `population BETWEEN min_pop AND max_pop` (closed
interval, SQL semantics). -/
def cityMatchesPop (min_pop max_pop : Nat) (r : CityRow) : Bool :=
  min_pop ≤ r.population && r.population ≤ max_pop

/-- The cap in `LIMIT 1000` of the slider page's query. -/
def MAP_QUERY_LIMIT : Nat := 1000

/-- Standard semantics of the query text built at 01_map.py lines 67-73:
`WHERE population BETWEEN min_pop AND max_pop ORDER BY population DESC
LIMIT 1000` over the remote dataset `ds`. -/
def mapQuerySQL (ds : List CityRow) (min_pop max_pop : Nat) : List CityRow :=
  ((ds.filter (cityMatchesPop min_pop max_pop)).mergeSort popDesc).take
    MAP_QUERY_LIMIT

/-- `load_filtered_data` (01_map.py lines 53-85).  Returns the new state
together with a flag recording whether a query was issued to the dataset
collaborator (the `min_pop > max_pop` guard returns before any connection is
opened).  The `except` branch reports an error status and empties
`data_df`. -/
def load_filtered_data (fetch : Except String (List CityRow)) (s : State) :
    State × Bool :=
  let min_pop := s.min_pop_value
  let max_pop := s.max_pop_value
  if min_pop > max_pop then
    ({ s with
        status_message := "錯誤：最低人口不能大於最高人口。"
        data_df := [] }, false)
  else
    match fetch with
    | .ok ds =>
        let df_result := mapQuerySQL ds min_pop max_pop
        ({ s with
            data_df := df_result
            status_message := "成功：載入 " ++ toString df_result.length
              ++ " 筆全球城市資料" }, true)
    | .error e =>
        ({ s with
            status_message := "錯誤：載入城市資料失敗 " ++ e
            data_df := [] }, true)

/-- The map widget's style state relevant to the layer lifecycle: the
identifiers of the layers and of the data sources currently present.  The map
collaborator keeps identifiers unique and removing an absent identifier
raises. -/
structure MapState where
  layers : List String
  sources : List String
deriving Repr, DecidableEq

/-- `m.remove_layer(id)`: raises when absent, otherwise removes the layer with
that identifier. -/
def remove_layer (id : String) (m : MapState) : Except String MapState :=
  if id ∈ m.layers then .ok { m with layers := m.layers.erase id }
  else .error ("layer not found: " ++ id)

/-- `m.remove_source(id)`: raises when absent, otherwise removes the source
with that identifier. -/
def remove_source (id : String) (m : MapState) : Except String MapState :=
  if id ∈ m.sources then .ok { m with sources := m.sources.erase id }
  else .error ("source not found: " ++ id)

/-- `try: m.remove_layer(layer) except Exception: pass`
(01_map.py lines 112-114). -/
def try_remove_layer (id : String) (m : MapState) : MapState :=
  match remove_layer id m with
  | .ok m1 => m1
  | .error _ => m

/-- `try: m.remove_source(SOURCE) except Exception: pass`
(01_map.py lines 115-116). -/
def try_remove_source (id : String) (m : MapState) : MapState :=
  match remove_source id m with
  | .ok m1 => m1
  | .error _ => m

def SOURCE : String := "city_source"

def CLUSTER_LAYER : String := "clusters"

def CLUSTER_COUNT_LAYER : String := "cluster-count"

def UNCLUSTERED_LAYER : String := "unclustered-point"

/-- The uncaught exception raised by `features = []; lats, lons = []`
(01_map.py line 120): unpacking the empty list into the two names `lats`
and `lons` raises unconditionally. -/
def VALUE_ERROR : String :=
  "ValueError: not enough values to unpack (expected 2, got 0)"

/-- `update_layer` (01_map.py lines 104-195): first remove the three layers
and the backing source, each in its own exception-suppressing `try`; return
early when `df` is empty (line 118).  On every non-empty frame the very next
statement, `lats, lons = []` at line 120, raises `ValueError` outside any
`try`, so the routine faults before the feature loop, `add_source` or any
`add_layer` call is reached: the code from line 121 onward is dead.  The
result pairs the widget state after the call with the uncaught exception, if
any — mutations of the shared map performed before the fault persist. -/
def update_layer (df : List CityRow) (m0 : MapState) :
    MapState × Option String :=
  let m1 := try_remove_layer CLUSTER_LAYER m0
  let m2 := try_remove_layer CLUSTER_COUNT_LAYER m1
  let m3 := try_remove_layer UNCLUSTERED_LAYER m2
  let m4 := try_remove_source SOURCE m3
  if df.isEmpty then (m4, none)
  else (m4, some VALUE_ERROR)

/-- The table/map part of `Page` (01_map.py lines 213-269): when `data_df` is
empty no table is built; when it holds more than 300 rows the table shows
`df.head(300)` and a truncation warning is added; otherwise the full frame is
shown without a warning.  The map component always receives the full
`data_df` (line 265). -/
structure PageView where
  tableRows : Option (List CityRow)
  truncationNotice : Bool
  mapRows : List CityRow
deriving Repr, DecidableEq

def TABLE_DISPLAY_LIMIT : Nat := 300

def renderPage (df : List CityRow) : PageView :=
  if df.isEmpty then
    { tableRows := none, truncationNotice := false, mapRows := df }
  else if df.length > TABLE_DISPLAY_LIMIT then
    { tableRows := some (df.take TABLE_DISPLAY_LIMIT), truncationNotice := true
      mapRows := df }
  else
    { tableRows := some df, truncationNotice := false, mapRows := df }

end MapPage

namespace AppPage

/-! Embedding of `pages/02_app.py`. -/

/-- The cap in `LIMIT 10` of the country page's query. -/
def APP_QUERY_LIMIT : Nat := 10

/-- Standard semantics of the query text built at 02_app.py lines 61-67:
`WHERE country = country_name ORDER BY population DESC LIMIT 10`. -/
def appQuerySQL (ds : List CityRow) (country_name : String) : List CityRow :=
  ((ds.filter fun r => r.country == country_name).mergeSort popDesc).take
    APP_QUERY_LIMIT

/-- `load_filtered_data` (02_app.py lines 49-75).  Returns the new `data_df`
together with the list of console lines printed.  With no selected country the
function returns before touching anything; on a query failure the handler
prints the error to the console — the page has no status-message state — and
empties `data_df`. -/
def load_filtered_data (country_name : String)
    (fetch : Except String (List CityRow)) (old_df : List CityRow) :
    List CityRow × List String :=
  if country_name = "" then (old_df, [])
  else
    match fetch with
    | .ok ds =>
        (appQuerySQL ds country_name, ["Querying data for: " ++ country_name])
    | .error e =>
        ([], ["Querying data for: " ++ country_name,
              "Error executing query: " ++ e])

/-- The status display of `Page` (02_app.py lines 167-195): with a selected
country and a non-empty `data_df` the data is shown (`none`); with a selected
country and an empty `data_df` a loading info message is shown; otherwise the
country-list loading message is shown.  No branch ever displays an error. -/
def pageStatus (selected : String) (df : List CityRow) : Option String :=
  if selected ≠ "" && !df.isEmpty then none
  else if selected ≠ "" then some ("正在載入 " ++ selected ++ " 的數據...")
  else some "正在載入國家清單..."

end AppPage

/-- A sample city record used to instantiate concrete scenarios. -/
def taipei : CityRow :=
  { name := "Taipei", country := "TWN", population := 2600000
    latitude := 25, longitude := 121 }

/-- A second sample city record. -/
def newYork : CityRow :=
  { name := "New York", country := "USA", population := 8300000
    latitude := 40, longitude := -74 }

/-! ### Shared helper lemmas -/

theorem popDesc_trans : ∀ a b c : CityRow,
    popDesc a b → popDesc b c → popDesc a c := by
  intro a b c hab hbc
  simp only [popDesc, decide_eq_true_eq] at *
  omega

theorem popDesc_total : ∀ a b : CityRow, popDesc a b || popDesc b a := by
  intro a b
  simp only [popDesc, Bool.or_eq_true, decide_eq_true_eq]
  omega

/-- Any prefix of a `popDesc`-mergeSorted list is sorted by population
descending. -/
theorem pairwise_take_mergeSort (l : List CityRow) (n : Nat) :
    ((l.mergeSort popDesc).take n).Pairwise
      (fun a b => b.population ≤ a.population) := by
  have hs := List.sorted_mergeSort popDesc_trans popDesc_total l
  have ht := List.Pairwise.sublist (List.take_sublist n _) hs
  exact ht.imp (by intro a b hab; simpa [popDesc] using hab)

/-- The rounded upper bound never falls below the actual maximum. -/
theorem le_roundedUpperBound (b : Nat) : b ≤ MapPage.roundedUpperBound b := by
  unfold MapPage.roundedUpperBound
  have h := Nat.div_add_mod (b + 99999) 100000
  have h2 : (b + 99999) % 100000 < 100000 := Nat.mod_lt _ (by omega)
  by_cases hc : ((b + 99999) / 100000) * 100000 < 100000
  · rw [if_pos hc]
    omega
  · rw [if_neg hc]
    omega

/-- Arithmetic facts about the rounded upper bound at a positive actual
maximum: it dominates the maximum, overshoots it by at most `99999`, is at
least `100000`, and is a multiple of `100000`. -/
theorem roundedUpperBound_spec (b : Nat) (hb : 1 ≤ b) :
    b ≤ MapPage.roundedUpperBound b ∧
    MapPage.roundedUpperBound b - b ≤ 99999 ∧
    100000 ≤ MapPage.roundedUpperBound b ∧
    MapPage.roundedUpperBound b % 100000 = 0 := by
  unfold MapPage.roundedUpperBound
  have h := Nat.div_add_mod (b + 99999) 100000
  have h2 : (b + 99999) % 100000 < 100000 := Nat.mod_lt _ (by omega)
  by_cases hc : ((b + 99999) / 100000) * 100000 < 100000
  · exfalso
    omega
  · rw [if_neg hc]
    exact ⟨by omega, by omega, by omega, Nat.mul_mod_left _ _⟩

/-! ### C1 -/

/-- C1: for every valid Filter State (population bounds with `min ≤ max` in
the slider page; a selected country code in the country page), the Result Set
produced by the Query Function contains only records satisfying every active
predicate — population within the closed interval `[min, max]`, respectively
country equal to the selected code — and its records are sorted by population
in descending order. -/
theorem C1_query_filters_and_sorts (ds : List CityRow) (min_pop max_pop : Nat)
    (hvalid : min_pop ≤ max_pop) (country_name : String)
    (hsel : country_name ≠ "") :
    (∀ r ∈ MapPage.mapQuerySQL ds min_pop max_pop,
        min_pop ≤ r.population ∧ r.population ≤ max_pop) ∧
    (MapPage.mapQuerySQL ds min_pop max_pop).Pairwise
      (fun a b => b.population ≤ a.population) ∧
    (∀ r ∈ AppPage.appQuerySQL ds country_name,
        r.country = country_name) ∧
    (AppPage.appQuerySQL ds country_name).Pairwise
      (fun a b => b.population ≤ a.population) := by
  refine ⟨?_, ?_, ?_, ?_⟩
  · intro r hr
    have h1 := List.mem_of_mem_take hr
    rw [List.mem_mergeSort] at h1
    have h2 := (List.mem_filter.1 h1).2
    simpa [MapPage.cityMatchesPop] using h2
  · exact pairwise_take_mergeSort _ _
  · intro r hr
    have h1 := List.mem_of_mem_take hr
    rw [List.mem_mergeSort] at h1
    have h2 := (List.mem_filter.1 h1).2
    simpa using h2
  · exact pairwise_take_mergeSort _ _

/-- Witness for C1 at a concrete valid Filter State. -/
theorem C1_query_filters_and_sorts_witness :
    (∀ r ∈ MapPage.mapQuerySQL [taipei, newYork] 1000000 15000000,
        1000000 ≤ r.population ∧ r.population ≤ 15000000) ∧
    (MapPage.mapQuerySQL [taipei, newYork] 1000000 15000000).Pairwise
      (fun a b => b.population ≤ a.population) ∧
    (∀ r ∈ AppPage.appQuerySQL [taipei, newYork] "TWN",
        r.country = "TWN") ∧
    (AppPage.appQuerySQL [taipei, newYork] "TWN").Pairwise
      (fun a b => b.population ≤ a.population) :=
  C1_query_filters_and_sorts [taipei, newYork] 1000000 15000000
    (by decide) "TWN" (by decide)

/-! ### C3 -/

/-- C3: for every Filter State with `min > max`, the Query Function yields an
empty Result Set and sets an error Status Message, and no SQL query is issued
to the dataset collaborator: the check short-circuits before any database
connection or query execution (the issued-query flag is `false` for every
possible fetch outcome). -/
theorem C3_min_gt_max_short_circuits (fetch : Except String (List CityRow))
    (s : MapPage.State) (h : s.max_pop_value < s.min_pop_value) :
    (MapPage.load_filtered_data fetch s).1.data_df = [] ∧
    (MapPage.load_filtered_data fetch s).1.status_message =
      "錯誤：最低人口不能大於最高人口。" ∧
    (MapPage.load_filtered_data fetch s).2 = false := by
  unfold MapPage.load_filtered_data
  rw [if_pos (by omega)]
  exact ⟨rfl, rfl, rfl⟩

/-- Witness for C3 at a concrete inverted Filter State. -/
theorem C3_min_gt_max_short_circuits_witness :
    (MapPage.load_filtered_data (.ok [taipei])
      { data_df := [], status_message := "", min_pop_value := 5000000
        max_pop_value := 1000000
        country_pop_bounds := (0, 15000000) }).2 = false :=
  (C3_min_gt_max_short_circuits (.ok [taipei])
    { data_df := [], status_message := "", min_pop_value := 5000000
      max_pop_value := 1000000, country_pop_bounds := (0, 15000000) }
    (by decide)).2.2

/-! ### C4 -/

/-- C4 counterexample: the claim says the `min > max` error path leaves the
Result Set untouched, but `load_filtered_data` executes
`data_df.set(pd.DataFrame())` on that path: starting from a state whose
Result Set holds one record, after the invalid filter is processed the Result
Set is empty, not the previous one. -/
theorem C4_counterexample :
    (MapPage.load_filtered_data (.ok [])
        { data_df := [taipei], status_message := "成功：載入 1 筆全球城市資料"
          min_pop_value := 2000000, max_pop_value := 1000000
          country_pop_bounds := (0, 15000000) }).1.data_df = [] ∧
    (MapPage.load_filtered_data (.ok [])
        { data_df := [taipei], status_message := "成功：載入 1 筆全球城市資料"
          min_pop_value := 2000000, max_pop_value := 1000000
          country_pop_bounds := (0, 15000000) }).1.data_df ≠ [taipei] := by
  constructor
  · rfl
  · decide

/-- C4 amended: for every Filter State with `min > max`, the short-circuit
error path *clears* the Result Set: it sets the Result Set to empty,
overwriting whatever Result Set was current before the invalid filter was
entered (so a previously non-empty Result Set does not survive). -/
theorem C4_error_path_clears_result_set (fetch : Except String (List CityRow))
    (s : MapPage.State) (h : s.max_pop_value < s.min_pop_value)
    (hprev : s.data_df ≠ []) :
    (MapPage.load_filtered_data fetch s).1.data_df = [] ∧
    (MapPage.load_filtered_data fetch s).1.data_df ≠ s.data_df := by
  unfold MapPage.load_filtered_data
  rw [if_pos (by omega)]
  exact ⟨rfl, fun hc => hprev hc.symm⟩

/-- Witness for the amended C4 at a concrete state with a non-empty previous
Result Set. -/
theorem C4_error_path_clears_result_set_witness :
    (MapPage.load_filtered_data (.error "unreachable")
      { data_df := [newYork], status_message := ""
        min_pop_value := 2000000, max_pop_value := 1000000
        country_pop_bounds := (0, 15000000) }).1.data_df = [] :=
  (C4_error_path_clears_result_set (.error "unreachable")
    { data_df := [newYork], status_message := ""
      min_pop_value := 2000000, max_pop_value := 1000000
      country_pop_bounds := (0, 15000000) }
    (by decide) (by decide)).1

/-! ### C9 -/

/-- C9: for every query, the number of rows in the Result Set never exceeds
the configured cap, and each page's cap is one of the spec's observed values
(10, 100, 200, 1000): the population-filter page caps at 1000 rows and the
country page caps at 10 rows. -/
theorem C9_row_caps (ds : List CityRow) (min_pop max_pop : Nat)
    (country_name : String) :
    (MapPage.mapQuerySQL ds min_pop max_pop).length ≤ MapPage.MAP_QUERY_LIMIT ∧
    (AppPage.appQuerySQL ds country_name).length ≤ AppPage.APP_QUERY_LIMIT ∧
    MapPage.MAP_QUERY_LIMIT = 1000 ∧ AppPage.APP_QUERY_LIMIT = 10 ∧
    MapPage.MAP_QUERY_LIMIT ∈ ([10, 100, 200, 1000] : List Nat) ∧
    AppPage.APP_QUERY_LIMIT ∈ ([10, 100, 200, 1000] : List Nat) := by
  refine ⟨?_, ?_, rfl, rfl, by decide, by decide⟩
  · exact (List.length_take_le _ _)
  · exact (List.length_take_le _ _)

namespace MapPage

/-! Helper lemmas on the layer lifecycle. -/

theorem try_remove_layer_eq (id : String) (m : MapState) :
    try_remove_layer id m = { m with layers := m.layers.erase id } := by
  unfold try_remove_layer remove_layer
  by_cases h : id ∈ m.layers
  · rw [if_pos h]
  · rw [if_neg h, List.erase_of_not_mem h]

theorem try_remove_source_eq (id : String) (m : MapState) :
    try_remove_source id m = { m with sources := m.sources.erase id } := by
  unfold try_remove_source remove_source
  by_cases h : id ∈ m.sources
  · rw [if_pos h]
  · rw [if_neg h, List.erase_of_not_mem h]

/-- On any frame, `update_layer` leaves the widget in the erase-chain state:
the three data layers and the backing source have been removed and nothing
has been added. -/
theorem update_layer_state (df : List CityRow) (m : MapState) :
    (update_layer df m).1 =
      { layers := ((m.layers.erase CLUSTER_LAYER).erase
            CLUSTER_COUNT_LAYER).erase UNCLUSTERED_LAYER
        sources := m.sources.erase SOURCE } := by
  simp only [update_layer, try_remove_layer_eq, try_remove_source_eq]
  split
  · rfl
  · rfl

end MapPage

/-! ### C2 -/

/-- C2 (code bug): the claim describes the intended remove-then-add
lifecycle, but `features = []; lats, lons = []` at 01_map.py line 120 raises
`ValueError` on every non-empty Result Set: the invocation removes the
existing data layers and their backing source, then faults before any
`add_source`/`add_layer` call, so afterwards *no* data layer is present at
all — not exactly one — and the fault propagates out of the Render
Function.  This theorem evaluates the code at the failing input class: a
non-empty Result Set on a duplicate-free style. -/
theorem C2_render_crashes_on_nonempty (df : List CityRow)
    (m : MapPage.MapState) (hdf : df ≠ []) (hL : m.layers.Nodup)
    (hS : m.sources.Nodup) :
    (MapPage.update_layer df m).2 = some MapPage.VALUE_ERROR ∧
    MapPage.CLUSTER_LAYER ∉ (MapPage.update_layer df m).1.layers ∧
    MapPage.CLUSTER_COUNT_LAYER ∉ (MapPage.update_layer df m).1.layers ∧
    MapPage.UNCLUSTERED_LAYER ∉ (MapPage.update_layer df m).1.layers ∧
    MapPage.SOURCE ∉ (MapPage.update_layer df m).1.sources := by
  have hempty : df.isEmpty = false := by
    cases df with
    | nil => exact absurd rfl hdf
    | cons a l => rfl
  have h1 : MapPage.CLUSTER_LAYER ∉
      ((m.layers.erase MapPage.CLUSTER_LAYER).erase
        MapPage.CLUSTER_COUNT_LAYER).erase MapPage.UNCLUSTERED_LAYER :=
    fun h =>
      hL.not_mem_erase (List.mem_of_mem_erase (List.mem_of_mem_erase h))
  have h2 : MapPage.CLUSTER_COUNT_LAYER ∉
      ((m.layers.erase MapPage.CLUSTER_LAYER).erase
        MapPage.CLUSTER_COUNT_LAYER).erase MapPage.UNCLUSTERED_LAYER :=
    fun h =>
      (hL.erase MapPage.CLUSTER_LAYER).not_mem_erase
        (List.mem_of_mem_erase h)
  have h3 : MapPage.UNCLUSTERED_LAYER ∉
      ((m.layers.erase MapPage.CLUSTER_LAYER).erase
        MapPage.CLUSTER_COUNT_LAYER).erase MapPage.UNCLUSTERED_LAYER :=
    ((hL.erase MapPage.CLUSTER_LAYER).erase
      MapPage.CLUSTER_COUNT_LAYER).not_mem_erase
  have h4 : MapPage.SOURCE ∉ m.sources.erase MapPage.SOURCE :=
    hS.not_mem_erase
  refine ⟨?_, ?_, ?_, ?_, ?_⟩
  · simp [MapPage.update_layer, hempty]
  · rw [MapPage.update_layer_state]
    exact h1
  · rw [MapPage.update_layer_state]
    exact h2
  · rw [MapPage.update_layer_state]
    exact h3
  · rw [MapPage.update_layer_state]
    exact h4

/-- Witness for the C2 evaluation at a one-row Result Set on a fresh map. -/
theorem C2_render_crashes_on_nonempty_witness :
    (MapPage.update_layer [taipei] ⟨["background"], []⟩).2 =
      some MapPage.VALUE_ERROR :=
  (C2_render_crashes_on_nonempty [taipei] ⟨["background"], []⟩ (by decide)
    (by decide) (by decide)).1

/-! ### C7 -/

/-- C7: removing a map layer or source that does not exist is a no-op: for
every map state, attempting to remove a layer (resp. source) under an
identifier that is not present leaves the map unchanged, and the
exception-suppressing wrapper means no fault escapes the Render Function
(the wrappers are total functions into `MapState`). -/
theorem C7_remove_missing_noop (id : String) (m : MapPage.MapState)
    (hl : id ∉ m.layers) (hs : id ∉ m.sources) :
    MapPage.try_remove_layer id m = m ∧
    MapPage.try_remove_source id m = m := by
  constructor
  · unfold MapPage.try_remove_layer MapPage.remove_layer
    rw [if_neg hl]
  · unfold MapPage.try_remove_source MapPage.remove_source
    rw [if_neg hs]

/-- Witness for C7 on a map that lacks the identifier. -/
theorem C7_remove_missing_noop_witness :
    MapPage.try_remove_layer "clusters" ⟨["background"], ["dem"]⟩ =
      (⟨["background"], ["dem"]⟩ : MapPage.MapState) :=
  (C7_remove_missing_noop "clusters" ⟨["background"], ["dem"]⟩
    (by decide) (by decide)).1

/-! ### C5 -/

/-- C5 counterexample: in the country page (`02_app.py`), a dataset-access
failure empties the Result Set but sets no user-visible error Status Message:
the page has no status-message state, the handler only prints to the console,
and the page's sole status display afterwards is the ordinary loading info
message — which is none of the printed console lines. -/
theorem C5_counterexample :
    (AppPage.load_filtered_data "USA" (.error "network unreachable")
      [newYork]).1 = [] ∧
    AppPage.pageStatus "USA"
        (AppPage.load_filtered_data "USA" (.error "network unreachable")
          [newYork]).1 = some "正在載入 USA 的數據..." ∧
    ∀ msg ∈ (AppPage.load_filtered_data "USA" (.error "network unreachable")
        [newYork]).2,
      AppPage.pageStatus "USA"
          (AppPage.load_filtered_data "USA" (.error "network unreachable")
            [newYork]).1 ≠ some msg := by
  refine ⟨rfl, rfl, ?_⟩
  decide

/-- C5 amended: for every dataset-access failure during a query, both query
functions return an empty Result Set and never propagate an unhandled
exception (the handlers are total); the slider page additionally sets a
user-visible error Status Message, while the country page only prints the
error to the console; the Render Function stays in the Empty state without
throwing on the resulting empty Result Set. -/
theorem C5_failure_recovered (e : String) (s : MapPage.State)
    (hq : s.min_pop_value ≤ s.max_pop_value) (country_name : String)
    (hsel : country_name ≠ "") (old_df : List CityRow)
    (mp : MapPage.MapState) :
    (MapPage.load_filtered_data (.error e) s).1.data_df = [] ∧
    (MapPage.load_filtered_data (.error e) s).1.status_message =
      "錯誤：載入城市資料失敗 " ++ e ∧
    (AppPage.load_filtered_data country_name (.error e) old_df).1 = [] ∧
    ("Error executing query: " ++ e) ∈
      (AppPage.load_filtered_data country_name (.error e) old_df).2 ∧
    (MapPage.update_layer [] mp).2 = none := by
  refine ⟨?_, ?_, ?_, ?_, rfl⟩
  · unfold MapPage.load_filtered_data
    rw [if_neg (by omega)]
  · unfold MapPage.load_filtered_data
    rw [if_neg (by omega)]
  · unfold AppPage.load_filtered_data
    rw [if_neg hsel]
  · unfold AppPage.load_filtered_data
    rw [if_neg hsel]
    simp

/-- Witness for the amended C5 at a concrete failure. -/
theorem C5_failure_recovered_witness :
    (MapPage.load_filtered_data (.error "HTTP 503")
      { data_df := [taipei], status_message := "", min_pop_value := 100000
        max_pop_value := 5000000
        country_pop_bounds := (0, 15000000) }).1.data_df = [] :=
  (C5_failure_recovered "HTTP 503"
    { data_df := [taipei], status_message := "", min_pop_value := 100000
      max_pop_value := 5000000, country_pop_bounds := (0, 15000000) }
    (by decide) "USA" (by decide) [newYork] ⟨[], []⟩).1

/-! ### C6 -/

/-- The spec's clamping of a selected value `v` into a domain `[lo, hi]`
("any currently-selected value outside the new domain must be clamped into
range").  This definition follows the spec's words and exists only to be
compared against the behaviour embedded from the source. -/
def specClamp (v lo hi : Nat) : Nat := max lo (min v hi)

/-- C6 counterexample: after a successful bounds load that shrinks the domain
to `(0, 1000000)`, a previously selected minimum of `2000000` (outside the
new domain) is not clamped — clamping would give `1000000` — but reset to
the new lower bound `0`. -/
theorem C6_counterexample :
    (MapPage.load_global_pop_bounds (.ok (some 0, some 950000))
        { data_df := [], status_message := "", min_pop_value := 2000000
          max_pop_value := 5000000
          country_pop_bounds := (0, 15000000) }).country_pop_bounds =
      (0, 1000000) ∧
    (MapPage.load_global_pop_bounds (.ok (some 0, some 950000))
        { data_df := [], status_message := "", min_pop_value := 2000000
          max_pop_value := 5000000
          country_pop_bounds := (0, 15000000) }).min_pop_value = 0 ∧
    specClamp 2000000 0 1000000 = 1000000 ∧
    (MapPage.load_global_pop_bounds (.ok (some 0, some 950000))
        { data_df := [], status_message := "", min_pop_value := 2000000
          max_pop_value := 5000000
          country_pop_bounds := (0, 15000000) }).min_pop_value ≠
      specClamp 2000000 0 1000000 := by
  refine ⟨rfl, rfl, rfl, ?_⟩
  decide

/-- C6 amended: whenever the bounds load succeeds, the code resets — rather
than clamps — both selected values to the new domain's endpoints: the
selected minimum becomes the new lower bound and the selected maximum the new
upper bound.  This still leaves the selected values inside the new domain
with `min ≤ max`, using only the aggregate-query fact that a non-NULL
minimum comes with a non-NULL maximum at least as large. -/
theorem C6_values_reset_to_new_domain (mn mx : Option Nat)
    (s : MapPage.State)
    (hagg : ∀ a, mn = some a → ∃ b, mx = some b ∧ a ≤ b) :
    (MapPage.load_global_pop_bounds (.ok (mn, mx)) s).min_pop_value =
      (MapPage.load_global_pop_bounds (.ok (mn, mx)) s).country_pop_bounds.1 ∧
    (MapPage.load_global_pop_bounds (.ok (mn, mx)) s).max_pop_value =
      (MapPage.load_global_pop_bounds (.ok (mn, mx)) s).country_pop_bounds.2 ∧
    (MapPage.load_global_pop_bounds (.ok (mn, mx)) s).min_pop_value ≤
      (MapPage.load_global_pop_bounds (.ok (mn, mx)) s).max_pop_value := by
  refine ⟨rfl, rfl, ?_⟩
  unfold MapPage.load_global_pop_bounds
  cases mn with
  | none => simp
  | some a =>
      obtain ⟨b, rfl, hab⟩ := hagg a rfl
      simpa using le_trans hab (le_roundedUpperBound b)

/-- Witness for the amended C6 at a concrete successful bounds load. -/
theorem C6_values_reset_to_new_domain_witness :
    (MapPage.load_global_pop_bounds (.ok (some 0, some 950000))
        { data_df := [], status_message := "", min_pop_value := 2000000
          max_pop_value := 5000000
          country_pop_bounds := (0, 15000000) }).min_pop_value ≤
      (MapPage.load_global_pop_bounds (.ok (some 0, some 950000))
        { data_df := [], status_message := "", min_pop_value := 2000000
          max_pop_value := 5000000
          country_pop_bounds := (0, 15000000) }).max_pop_value :=
  (C6_values_reset_to_new_domain (some 0) (some 950000)
    { data_df := [], status_message := "", min_pop_value := 2000000
      max_pop_value := 5000000, country_pop_bounds := (0, 15000000) }
    (by intro a h; injection h with h0; subst h0
        exact ⟨950000, rfl, by decide⟩)).2.2

/-! ### C8 -/

/-- C8: for every Result Set with more than 300 rows, the Table View displays
only the first 300 rows and surfaces a truncation notice, while the map
receives the full untruncated Result Set; for Result Sets of at most 300
rows no truncation or notice occurs. -/
theorem C8_table_truncated_map_full (df : List CityRow) :
    (MapPage.renderPage df).mapRows = df ∧
    (MapPage.TABLE_DISPLAY_LIMIT < df.length →
      (MapPage.renderPage df).tableRows =
        some (df.take MapPage.TABLE_DISPLAY_LIMIT) ∧
      ((MapPage.renderPage df).tableRows.getD []).length =
        MapPage.TABLE_DISPLAY_LIMIT ∧
      (MapPage.renderPage df).truncationNotice = true) ∧
    (df.length ≤ MapPage.TABLE_DISPLAY_LIMIT →
      (MapPage.renderPage df).truncationNotice = false ∧
      ∀ t, (MapPage.renderPage df).tableRows = some t → t = df) := by
  refine ⟨?_, ?_, ?_⟩
  · unfold MapPage.renderPage
    split
    · rfl
    · split
      · rfl
      · rfl
  · intro hgt
    have hne : df.isEmpty = false := by
      cases df with
      | nil => simp [MapPage.TABLE_DISPLAY_LIMIT] at hgt
      | cons a l => rfl
    have hlen : (df.take MapPage.TABLE_DISPLAY_LIMIT).length =
        MapPage.TABLE_DISPLAY_LIMIT := by
      rw [List.length_take]
      omega
    simp [MapPage.renderPage, hne, hgt, hlen]
  · intro hle
    unfold MapPage.renderPage
    split
    · exact ⟨rfl, fun t ht => by cases ht⟩
    · split
      · next h => exact absurd h (by omega)
      · exact ⟨rfl, fun t ht => by injection ht with h2; exact h2.symm⟩

/-- Witness for C8 on a 301-row and a 1-row Result Set. -/
theorem C8_table_truncated_map_full_witness :
    (MapPage.renderPage (List.replicate 301 taipei)).truncationNotice = true ∧
    (MapPage.renderPage [taipei]).truncationNotice = false :=
  ⟨((C8_table_truncated_map_full (List.replicate 301 taipei)).2.1
      (by rw [List.length_replicate]; decide)).2.2,
   ((C8_table_truncated_map_full [taipei]).2.2 (by decide)).1⟩

/-! ### C10 -/

/-- C10 counterexample: when the dataset's actual maximum population is `0`,
the rounded bound is `0` and the floor-clamp raises the stored upper bound to
`100000`, which exceeds the true maximum by `100000` — more than the claimed
`99999`. -/
theorem C10_counterexample :
    (MapPage.load_global_pop_bounds (.ok (some 0, some 0))
        { data_df := [], status_message := "", min_pop_value := 100000
          max_pop_value := 5000000
          country_pop_bounds := (0, 15000000) }).country_pop_bounds.2 =
      100000 ∧
    ¬ ((MapPage.load_global_pop_bounds (.ok (some 0, some 0))
        { data_df := [], status_message := "", min_pop_value := 100000
          max_pop_value := 5000000
          country_pop_bounds := (0, 15000000) }).country_pop_bounds.2
        - 0 ≤ 99999) := by
  refine ⟨rfl, ?_⟩
  decide

/-- C10 amended: after every successful bounds load whose actual maximum
population is at least 1, the stored upper bound equals the actual maximum
rounded up to the nearest multiple of 100000 (with a floor of 100000), both
slider values are reset to the new lower and upper bounds respectively, and
the upper bound exceeds the true maximum by at most 99999; when the actual
maximum is 0 the floor-clamp makes the excess exactly 100000. -/
theorem C10_upper_bound_rounded (mn : Option Nat) (b : Nat) (hb : 1 ≤ b)
    (s : MapPage.State) :
    (MapPage.load_global_pop_bounds (.ok (mn, some b)) s).country_pop_bounds.2
      = MapPage.roundedUpperBound b ∧
    (MapPage.load_global_pop_bounds (.ok (mn, some b)) s).max_pop_value =
      (MapPage.load_global_pop_bounds (.ok (mn, some b))
        s).country_pop_bounds.2 ∧
    (MapPage.load_global_pop_bounds (.ok (mn, some b)) s).min_pop_value =
      (MapPage.load_global_pop_bounds (.ok (mn, some b))
        s).country_pop_bounds.1 ∧
    b ≤ MapPage.roundedUpperBound b ∧
    MapPage.roundedUpperBound b - b ≤ 99999 ∧
    100000 ≤ MapPage.roundedUpperBound b ∧
    MapPage.roundedUpperBound b % 100000 = 0 := by
  obtain ⟨s1, s2, s3, s4⟩ := roundedUpperBound_spec b hb
  exact ⟨rfl, rfl, rfl, s1, s2, s3, s4⟩

/-- Witness for the amended C10 at a concrete positive actual maximum. -/
theorem C10_upper_bound_rounded_witness :
    (MapPage.load_global_pop_bounds (.ok (some 12300, some 950000))
        { data_df := [], status_message := "", min_pop_value := 100000
          max_pop_value := 5000000
          country_pop_bounds := (0, 15000000) }).country_pop_bounds.2 =
      MapPage.roundedUpperBound 950000 :=
  (C10_upper_bound_rounded (some 12300) 950000 (by decide)
    { data_df := [], status_message := "", min_pop_value := 100000
      max_pop_value := 5000000, country_pop_bounds := (0, 15000000) }).1

end Cities
